import Mathlib

/-!
Shallow embedding of `src/main.rs` of the jitsi-keycloak bridge.

Conventions of the embedding:
* `HashMap<Uuid, Session>` becomes an association list with the map
  discipline (at most one binding per key); `remove`/`insert` are the
  corresponding association-list operations.
* External effects (the OIDC code exchange over the network, the
  access-token-hash computation of the `openidconnect` crate, the current
  time) are parameters of the handler functions.
* `OffsetDateTime` is modelled as an `Int` counting nanoseconds since the
  Unix epoch; `unix_timestamp()` is floor division to whole seconds.
* Signing of the minted JWT is outside the model: the minted credential is
  represented by its claims structure `JitsiClaims`.
-/

/-- `const COOKIE_NAME: &str = "SESSION"` (main.rs line 32). -/
def COOKIE_NAME : String := "SESSION"

/-- A UUID, normalised to its 32 lowercase hexadecimal digits
(models `uuid::Uuid`). -/
structure Uuid where
  hex : String
deriving DecidableEq, Repr

/-- Hexadecimal digit test used by the UUID parser. -/
def isHexChar (c : Char) : Bool :=
  c.isDigit || ('a' ≤ c && c ≤ 'f') || ('A' ≤ c && c ≤ 'F')

/-- Splits a character list at every hyphen (helper for the hyphenated
UUID form). -/
def splitOnDash : List Char → List (List Char)
  | [] => [[]]
  | c :: rest =>
    let r := splitOnDash rest
    if c = '-' then [] :: r
    else
      match r with
      | [] => [[c]]
      | g :: gs => (c :: g) :: gs

/-- Models `Uuid::parse_str` of the `uuid` crate: accepts the simple
(32 hex digits), hyphenated (8-4-4-4-12), urn-prefixed and braced forms,
and normalises to lowercase simple form. Returns `none` on malformed
input (Rust: `Err(_)`). -/
def Uuid.parse_str (s : String) : Option Uuid :=
  let cs := s.toList
  let cs := if "urn:uuid:".toList.isPrefixOf cs then cs.drop 9 else cs
  let cs :=
    match cs with
    | '\x7b' :: rest => if rest.getLast? = some '\x7d' then rest.dropLast else cs
    | _ => cs
  if cs.length = 32 && cs.all isHexChar then
    some ⟨String.mk (cs.map Char.toLower)⟩
  else
    match splitOnDash cs with
    | [a, b, c, d, e] =>
      if a.length = 8 && b.length = 4 && c.length = 4 && d.length = 4 && e.length = 12
          && (a ++ b ++ c ++ d ++ e).all isHexChar then
        some ⟨String.mk ((a ++ b ++ c ++ d ++ e).map Char.toLower)⟩
      else none
    | _ => none

/-- Models `Uuid::to_string`: the hyphenated lowercase form. -/
def Uuid.toString (u : Uuid) : String :=
  let cs := u.hex.toList
  String.mk (cs.take 8) ++ "-" ++ String.mk ((cs.drop 8).take 4) ++ "-" ++
    String.mk ((cs.drop 12).take 4) ++ "-" ++ String.mk ((cs.drop 16).take 4) ++ "-" ++
    String.mk (cs.drop 20)

/-- `struct Session` (main.rs lines 36-41): one pending authentication
attempt. Secrets are modelled as strings. -/
structure Session where
  room : String
  csrf_token : String
  nonce : String
  pkce_verifier : String
deriving DecidableEq, Repr

/-- `type Store = Arc<RwLock<HashMap<Uuid, Session>>>` (main.rs line 34),
as an association list with unique keys. -/
abbrev Store := List (Uuid × Session)

/-- Models `HashMap::remove(&session_id)` (main.rs line 166): returns the
binding for the key, if any, and the map without that key. -/
def storeRemove (store : Store) (id : Uuid) : Option Session × Store :=
  (store.lookup id, store.filter (fun p => !(p.1 == id)))

/-- Models `HashMap::insert(session_id, session)` (main.rs line 127):
replaces any existing binding for the key. -/
def storeInsert (store : Store) (id : Uuid) (s : Session) : Store :=
  (id, s) :: store.filter (fun p => !(p.1 == id))

/-- `enum AppError` (src/error.rs, names as used in main.rs). -/
inductive AppError where
  | InvalidSession
  | InvalidState
  | InvalidCode
  | MissingIdToken
  | InvalidIdTokenNonce
  | MissingAccessTokenHash
  | UnsupportedSigningAlgorithm
  | InvalidAccessToken
  | InternalServerError
deriving DecidableEq, Repr

/-- The relevant fields of the configuration `Cfg` (src/cfg.rs) consumed
by the callback handler. -/
structure Cfg where
  jitsi_sub : String
  jitsi_secret : String
  jitsi_url : String
deriving DecidableEq, Repr

/-- The identity claims inside a verified id token, flattened to the
accessors main.rs uses: `access_token_hash()`, `preferred_username()`,
`subject()`, `email()`, `name().and_then(|n| n.get(None))`. -/
structure Claims where
  access_token_hash : Option String
  preferred_username : Option String
  subject : String
  email : Option String
  name : Option String
deriving DecidableEq, Repr

/-- An id token as returned by the provider: whether its signature
verifies against the client verifier, the embedded nonce, the signing
algorithm (`signing_alg()`, `none` models `Err(_)`), and the payload
claims. -/
structure IdToken where
  signatureValid : Bool
  nonce : String
  signing_alg : Option String
  payload : Claims
deriving DecidableEq, Repr

/-- Models `id_token.claims(&verifier, &nonce)` (main.rs line 188):
succeeds exactly when the signature verifies and the embedded nonce
equals the expected one. -/
def IdToken.claims (t : IdToken) (nonce : String) : Option Claims :=
  if t.signatureValid && t.nonce == nonce then some t.payload else none

/-- The token-endpoint response: `id_token()` and `access_token()`. -/
structure TokenResponse where
  id_token : Option IdToken
  access_token : String
deriving DecidableEq, Repr

/-- `struct Callback` (main.rs lines 146-151): the query parameters of
`GET /callback`. -/
structure Callback where
  state : String
  code : String
deriving DecidableEq, Repr

/-- `struct JitsiUser` (main.rs lines 259-265). -/
structure JitsiUser where
  avatar : Option String
  name : Option String
  email : Option String
  id : String
deriving DecidableEq, Repr

/-- `struct JitsiContext` (main.rs lines 253-257). -/
structure JitsiContext where
  user : JitsiUser
  group : Option String
deriving DecidableEq, Repr

/-- `struct JitsiClaims` (main.rs lines 240-251); `iat` and `exp` are
`OffsetDateTime`s, modelled as nanoseconds since the Unix epoch. -/
structure JitsiClaims where
  context : JitsiContext
  aud : String
  iss : String
  sub : String
  room : String
  iat : Int
  exp : Int
deriving DecidableEq, Repr

/-- Models `jwt_numeric_date::serialize` (main.rs lines 290-296):
`date.unix_timestamp()` is the whole number of seconds since the epoch,
i.e. the nanosecond count floor-divided by 10^9. -/
def jwt_numeric_date_serialize (date : Int) : Int :=
  date / 1000000000

/-- `fn create_jitsi_jwt` (main.rs lines 267-282), with the current time
(`OffsetDateTime::now_utc()`) passed in as `now` (nanoseconds since the
epoch) and the signing step abstracted away: the function returns the
claims that get signed.  `exp = iat + Duration::days(1)`. -/
def create_jitsi_jwt (now : Int) (uid : String) (email : Option String)
    (name : Option String) (avatar : Option String) (aud : String) (iss : String)
    (sub : String) (room : String) (secret : String) : JitsiClaims :=
  let iat := now
  let exp := iat + 86400 * 1000000000
  let user : JitsiUser := { avatar := avatar, name := name, email := email, id := uid }
  let context : JitsiContext := { user := user, group := none }
  { context := context, aud := aud, iss := iss, sub := sub, room := room,
    iat := iat, exp := exp }

/-- The uid resolution of main.rs lines 212-215: the preferred-username
claim when present, otherwise the subject claim. -/
def resolveUid (claims : Claims) : String :=
  match claims.preferred_username with
  | some name => name
  | none => claims.subject

/-- The final redirect of a successful callback (main.rs lines 229-231):
`config.jitsi_url.join(&session.room)` with the minted token appended as
the `jwt` query pair. -/
structure Redirect where
  base : String
  room : String
  jwt : JitsiClaims
deriving DecidableEq, Repr

/-- The validation chain of the callback handler after the pending
attempt has been consumed (main.rs lines 171-237).  Returns the result
together with the flag recording whether the code exchange with the
identity provider was reached.  `exchange code verifier` models
`client.exchange_code(code).set_pkce_verifier(verifier).request_async`
(`none` models `Err(_)`); `hashFromToken token alg` models
`AccessTokenHash::from_token(token, alg)`. -/
def validate (config : Cfg) (exchange : String → String → Option TokenResponse)
    (hashFromToken : String → String → Option String) (now : Int)
    (session : Session) (cb : Callback) : Except AppError Redirect × Bool :=
  if cb.state ≠ session.csrf_token then
    (.error .InvalidState, false)
  else
    match exchange cb.code session.pkce_verifier with
    | none => (.error .InvalidCode, true)
    | some response =>
      match response.id_token with
      | none => (.error .MissingIdToken, true)
      | some id_token =>
        match id_token.claims session.nonce with
        | none => (.error .InvalidIdTokenNonce, true)
        | some claims =>
          match claims.access_token_hash with
          | none => (.error .MissingAccessTokenHash, true)
          | some expected_access_token_hash =>
            match id_token.signing_alg with
            | none => (.error .UnsupportedSigningAlgorithm, true)
            | some algorithm =>
              match hashFromToken response.access_token algorithm with
              | none => (.error .UnsupportedSigningAlgorithm, true)
              | some actual_access_token_hash =>
                if actual_access_token_hash ≠ expected_access_token_hash then
                  (.error .InvalidAccessToken, true)
                else
                  let uid := resolveUid claims
                  let jwt := create_jitsi_jwt now uid claims.email claims.name none
                    "jitsi" "jitsi" config.jitsi_sub "*" config.jitsi_secret
                  (.ok { base := config.jitsi_url, room := session.room, jwt := jwt }, true)

/-- The whole outcome of one callback request: the response, the store
after the request, and whether the identity provider was contacted. -/
structure CallbackOutcome where
  result : Except AppError Redirect
  store : Store
  provider_called : Bool
deriving Repr

/-- `async fn callback` (main.rs lines 153-238).  `cookies` is the cookie
map of the request; the session cookie is read and parsed exactly as in
`cookies.get(COOKIE_NAME).map(Uuid::parse_str)`, then the pending attempt
is removed from the store, then `validate` runs the rest of the chain. -/
def callback (config : Cfg) (exchange : String → String → Option TokenResponse)
    (hashFromToken : String → String → Option String) (now : Int)
    (store : Store) (cookies : List (String × String)) (cb : Callback) : CallbackOutcome :=
  match (cookies.lookup COOKIE_NAME).map Uuid.parse_str with
  | some (some session_id) =>
    match storeRemove store session_id with
    | (none, store2) => { result := .error .InvalidSession, store := store2, provider_called := false }
    | (some session, store2) =>
      let v := validate config exchange hashFromToken now session cb
      { result := v.1, store := store2, provider_called := v.2 }
  | some none => { result := .error .InvalidSession, store := store, provider_called := false }
  | none => { result := .error .InvalidSession, store := store, provider_called := false }

/-- The `SESSION` cookie built by the room handler (main.rs lines
130-137). -/
structure CookieSpec where
  name : String
  value : String
  domain : String
  path : String
  http_only : Bool
  max_age_seconds : Int
deriving DecidableEq, Repr

/-- The random material drawn by the room handler: the PKCE pair, the
csrf token, the nonce (`new_random`) and the v4 session id. -/
structure RoomRandom where
  pkce_verifier : String
  csrf_token : String
  nonce : String
  session_id : Uuid
deriving Repr

/-- The response of the room handler: the updated store, the Set-Cookie
header, and the redirect to the provider's authorization URL. -/
structure RoomOutcome where
  store : Store
  cookie : CookieSpec
  redirect : String
deriving Repr

/-- `async fn room` (main.rs lines 109-144), with the random material and
the authorization URL (built by the `openidconnect` client) passed in.
Stores the pending attempt under the fresh session id and emits the
session cookie: Domain=localhost, Path=/, HttpOnly,
Max-Age=30 minutes. -/
def room (rnd : RoomRandom) (auth_url : String) (store : Store) (name : String) : RoomOutcome :=
  let session : Session :=
    { room := name, csrf_token := rnd.csrf_token, nonce := rnd.nonce,
      pkce_verifier := rnd.pkce_verifier }
  { store := storeInsert store rnd.session_id session,
    cookie := { name := COOKIE_NAME, value := rnd.session_id.toString,
                domain := "localhost", path := "/", http_only := true,
                max_age_seconds := 30 * 60 },
    redirect := auth_url }

/-! Concrete fixtures used by witnesses and counterexamples. -/

/-- A concrete well-formed session id. -/
def exUuid : Uuid := ⟨"0123456789abcdef0123456789abcdef"⟩

/-- A concrete pending attempt for room "standup". -/
def exSession : Session := ⟨"standup", "csrf1", "nonce1", "pkce1"⟩

/-- Identity claims with a preferred username and an access-token hash. -/
def exClaims : Claims := ⟨some "hashX", some "alice", "sub-1", some "a@b.c", some "Alice"⟩

/-- Identity claims without a preferred username. -/
def exClaimsNoPref : Claims := ⟨some "hashX", none, "sub-1", none, none⟩

/-- Identity claims without an access-token hash. -/
def exClaimsNoHash : Claims := ⟨none, some "alice", "sub-1", none, none⟩

/-- A valid id token embedding `exClaims` and the nonce of `exSession`. -/
def exToken : IdToken := ⟨true, "nonce1", some "RS256", exClaims⟩

/-- A valid id token whose claims carry no access-token hash. -/
def exTokenNoHash : IdToken := ⟨true, "nonce1", some "RS256", exClaimsNoHash⟩

/-- A token-endpoint response carrying `exToken`. -/
def exResponse : TokenResponse := ⟨some exToken, "atk"⟩

/-- A token-endpoint response whose id token has no access-token hash. -/
def exResponseNoHash : TokenResponse := ⟨some exTokenNoHash, "atk"⟩

/-- A provider that accepts every code exchange with `exResponse`. -/
def exExchange : String → String → Option TokenResponse := fun _ _ => some exResponse

/-- A provider answering with `exResponseNoHash`. -/
def exExchangeNoHash : String → String → Option TokenResponse := fun _ _ => some exResponseNoHash

/-- A hash computation matching the hash claimed in `exClaims`. -/
def exHashFn : String → String → Option String := fun _ _ => some "hashX"

/-- A hash computation that produces a different hash. -/
def exHashFnBad : String → String → Option String := fun _ _ => some "hashY"

/-- A concrete configuration. -/
def exCfg : Cfg := ⟨"jitsi-sub", "secret", "https://meet.example/"⟩

/-- Concrete random material for the room handler. -/
def exRnd : RoomRandom := ⟨"pkce1", "csrf1", "nonce1", exUuid⟩

/-- A callback query whose state matches `exSession`'s csrf token. -/
def exCb : Callback := ⟨"csrf1", "code1"⟩

/-- A callback query whose state does not match the stored csrf token. -/
def exCbBad : Callback := ⟨"wrong-state", "code1"⟩

/-- A store holding the pending attempt `exSession` under `exUuid`. -/
def exStore : Store := [(exUuid, exSession)]

/-- A cookie map carrying the session cookie for `exUuid`. -/
def exCookies : List (String × String) := [(COOKIE_NAME, exUuid.toString)]

/-- The minted claims of the successful fixture run at time 0. -/
def exJitsiJwt : JitsiClaims :=
  create_jitsi_jwt 0 "alice" (some "a@b.c") (some "Alice") none "jitsi" "jitsi"
    "jitsi-sub" "*" "secret"

/-- The final redirect of the successful fixture run. -/
def exRedirect : Redirect := ⟨"https://meet.example/", "standup", exJitsiJwt⟩

/-! Helper lemmas. -/

/-- Looking up a key in a store filtered of that key finds nothing. -/
theorem lookup_filter_removed (l : Store) (id : Uuid) :
    (l.filter (fun p => !(p.1 == id))).lookup id = none := by
  induction l with
  | nil => rfl
  | cons p rest ih =>
    by_cases h : p.1 = id
    · simpa [List.filter, h] using ih
    · have hb : (p.1 == id) = false := by simp [h]
      have hb2 : (id == p.1) = false := by
        simp only [beq_eq_false_iff_ne, ne_eq]
        exact fun e => h e.symm
      simp [List.filter, hb, List.lookup, hb2, ih]

/-- When the session cookie parses, the callback's resulting store is the
input store with the session id removed, whatever the outcome. -/
theorem callback_store_of_parse (config : Cfg)
    (exchange : String → String → Option TokenResponse)
    (hashFromToken : String → String → Option String) (now : Int) (store : Store)
    (cookies : List (String × String)) (cb : Callback) (v : String) (sid : Uuid)
    (hv : cookies.lookup COOKIE_NAME = some v) (hp : Uuid.parse_str v = some sid) :
    (callback config exchange hashFromToken now store cookies cb).store
      = store.filter (fun p => !(p.1 == sid)) := by
  rcases hls : store.lookup sid with _ | s <;>
    simp [callback, hv, hp, storeRemove, hls]

/-! Claim theorems. -/

/-- C2: a pending attempt is consumed at most once: after any callback
request whose session cookie parses to an id (so the request reaches the
consume step, whatever its outcome), replaying the identical request
(same cookie map, same query) against the resulting store yields
InvalidSession. -/
theorem callback_attempt_single_use (config : Cfg)
    (exchange : String → String → Option TokenResponse)
    (hashFromToken : String → String → Option String) (now : Int) (store : Store)
    (cookies : List (String × String)) (cb : Callback) (v : String) (sid : Uuid)
    (hv : cookies.lookup COOKIE_NAME = some v) (hp : Uuid.parse_str v = some sid) :
    (callback config exchange hashFromToken now
        (callback config exchange hashFromToken now store cookies cb).store
        cookies cb).result = .error .InvalidSession := by
  rw [callback_store_of_parse config exchange hashFromToken now store cookies cb v sid hv hp]
  simp [callback, hv, hp, storeRemove, lookup_filter_removed]

/-- C2 witness: a concrete replay of the successful fixture run fails
with InvalidSession. -/
theorem callback_attempt_single_use_witness :
    exCookies.lookup COOKIE_NAME = some exUuid.toString ∧
    Uuid.parse_str exUuid.toString = some exUuid ∧
    (callback exCfg exExchange exHashFn 0
        (callback exCfg exExchange exHashFn 0 exStore exCookies exCb).store
        exCookies exCb).result = .error .InvalidSession :=
  ⟨rfl, by decide,
    callback_attempt_single_use exCfg exExchange exHashFn 0 exStore exCookies exCb
      exUuid.toString exUuid rfl (by decide)⟩

/-- C3: when the cookie resolves to a stored pending attempt but the
state query parameter differs from the stored csrf token, the result is
InvalidState and the attempt is no longer in the store. -/
theorem callback_state_mismatch_consumes (config : Cfg)
    (exchange : String → String → Option TokenResponse)
    (hashFromToken : String → String → Option String) (now : Int) (store : Store)
    (cookies : List (String × String)) (cb : Callback) (v : String) (sid : Uuid)
    (session : Session)
    (hv : cookies.lookup COOKIE_NAME = some v) (hp : Uuid.parse_str v = some sid)
    (hs : store.lookup sid = some session)
    (hne : cb.state ≠ session.csrf_token) :
    (callback config exchange hashFromToken now store cookies cb).result
        = .error .InvalidState ∧
    (callback config exchange hashFromToken now store cookies cb).store.lookup sid = none := by
  constructor
  · simp [callback, hv, hp, storeRemove, hs, validate, hne]
  · rw [callback_store_of_parse config exchange hashFromToken now store cookies cb v sid hv hp]
    exact lookup_filter_removed store sid

/-- C3 witness: a concrete callback with a wrong state yields
InvalidState and removes the attempt. -/
theorem callback_state_mismatch_consumes_witness :
    exCookies.lookup COOKIE_NAME = some exUuid.toString ∧
    Uuid.parse_str exUuid.toString = some exUuid ∧
    exStore.lookup exUuid = some exSession ∧
    exCbBad.state ≠ exSession.csrf_token ∧
    ((callback exCfg exExchange exHashFn 0 exStore exCookies exCbBad).result
        = .error .InvalidState ∧
     (callback exCfg exExchange exHashFn 0 exStore exCookies exCbBad).store.lookup exUuid
        = none) :=
  ⟨rfl, by decide, by decide, by decide,
    callback_state_mismatch_consumes exCfg exExchange exHashFn 0 exStore exCookies exCbBad
      exUuid.toString exUuid exSession rfl (by decide) (by decide) (by decide)⟩

/-- C4: a callback with no SESSION cookie, or with a cookie that is not a
well-formed UUID, yields InvalidSession without contacting the identity
provider. -/
theorem callback_invalid_cookie_no_provider_call (config : Cfg)
    (exchange : String → String → Option TokenResponse)
    (hashFromToken : String → String → Option String) (now : Int) (store : Store)
    (cookies : List (String × String)) (cb : Callback)
    (h : cookies.lookup COOKIE_NAME = none
        ∨ ∃ v, cookies.lookup COOKIE_NAME = some v ∧ Uuid.parse_str v = none) :
    (callback config exchange hashFromToken now store cookies cb).result
        = .error .InvalidSession ∧
    (callback config exchange hashFromToken now store cookies cb).provider_called = false := by
  rcases h with h | ⟨v, hv, hp⟩
  · simp [callback, h]
  · simp [callback, hv, hp]

/-- C4 witness: a concrete request without any cookie is rejected with
InvalidSession and the provider flag stays false. -/
theorem callback_invalid_cookie_no_provider_call_witness :
    (([] : List (String × String)).lookup COOKIE_NAME = none) ∧
    ((callback exCfg exExchange exHashFn 0 exStore [] exCb).result
        = .error .InvalidSession ∧
     (callback exCfg exExchange exHashFn 0 exStore [] exCb).provider_called = false) :=
  ⟨rfl,
    callback_invalid_cookie_no_provider_call exCfg exExchange exHashFn 0 exStore [] exCb
      (Or.inl rfl)⟩

/-- C5: when the whole chain up to id-token verification succeeds but the
verified identity token carries no access-token-hash claim, the result is
MissingAccessTokenHash. -/
theorem callback_missing_access_token_hash (config : Cfg)
    (exchange : String → String → Option TokenResponse)
    (hashFromToken : String → String → Option String) (now : Int) (store : Store)
    (cookies : List (String × String)) (cb : Callback) (v : String) (sid : Uuid)
    (session : Session) (resp : TokenResponse) (tok : IdToken)
    (hv : cookies.lookup COOKIE_NAME = some v) (hp : Uuid.parse_str v = some sid)
    (hs : store.lookup sid = some session)
    (hst : cb.state = session.csrf_token)
    (hex : exchange cb.code session.pkce_verifier = some resp)
    (hid : resp.id_token = some tok)
    (hsig : tok.signatureValid = true)
    (hn : tok.nonce = session.nonce)
    (hh : tok.payload.access_token_hash = none) :
    (callback config exchange hashFromToken now store cookies cb).result
      = .error .MissingAccessTokenHash := by
  simp [callback, hv, hp, storeRemove, hs, validate, hst, hex, hid, IdToken.claims,
    hsig, hn, hh]

/-- C5 witness: the fixture run whose id token lacks the hash claim. -/
theorem callback_missing_access_token_hash_witness :
    exCookies.lookup COOKIE_NAME = some exUuid.toString ∧
    Uuid.parse_str exUuid.toString = some exUuid ∧
    exStore.lookup exUuid = some exSession ∧
    exCb.state = exSession.csrf_token ∧
    exExchangeNoHash exCb.code exSession.pkce_verifier = some exResponseNoHash ∧
    exResponseNoHash.id_token = some exTokenNoHash ∧
    exTokenNoHash.signatureValid = true ∧
    exTokenNoHash.nonce = exSession.nonce ∧
    exTokenNoHash.payload.access_token_hash = none ∧
    (callback exCfg exExchangeNoHash exHashFn 0 exStore exCookies exCb).result
      = .error .MissingAccessTokenHash :=
  ⟨rfl, by decide, by decide, rfl, rfl, rfl, rfl, rfl, rfl,
    callback_missing_access_token_hash exCfg exExchangeNoHash exHashFn 0 exStore exCookies
      exCb exUuid.toString exUuid exSession exResponseNoHash exTokenNoHash
      rfl (by decide) (by decide) rfl rfl rfl rfl rfl rfl⟩

/-- C6: when the hash claim is present and the hash of the access token
is recomputed successfully, a mismatch yields InvalidAccessToken and a
match lets validation proceed to a successful redirect. -/
theorem callback_access_token_hash_check (config : Cfg)
    (exchange : String → String → Option TokenResponse)
    (hashFromToken : String → String → Option String) (now : Int) (store : Store)
    (cookies : List (String × String)) (cb : Callback) (v : String) (sid : Uuid)
    (session : Session) (resp : TokenResponse) (tok : IdToken)
    (expected actual : String) (alg : String)
    (hv : cookies.lookup COOKIE_NAME = some v) (hp : Uuid.parse_str v = some sid)
    (hs : store.lookup sid = some session)
    (hst : cb.state = session.csrf_token)
    (hex : exchange cb.code session.pkce_verifier = some resp)
    (hid : resp.id_token = some tok)
    (hsig : tok.signatureValid = true)
    (hn : tok.nonce = session.nonce)
    (hh : tok.payload.access_token_hash = some expected)
    (halg : tok.signing_alg = some alg)
    (hcomp : hashFromToken resp.access_token alg = some actual) :
    (actual ≠ expected →
      (callback config exchange hashFromToken now store cookies cb).result
        = .error .InvalidAccessToken) ∧
    (actual = expected →
      ∃ red, (callback config exchange hashFromToken now store cookies cb).result
        = .ok red) := by
  constructor
  · intro hne
    simp [callback, hv, hp, storeRemove, hs, validate, hst, hex, hid, IdToken.claims,
      hsig, hn, hh, halg, hcomp, hne]
  · intro heq
    subst heq
    refine ⟨⟨config.jitsi_url, session.room,
      create_jitsi_jwt now (resolveUid tok.payload) tok.payload.email tok.payload.name
        none "jitsi" "jitsi" config.jitsi_sub "*" config.jitsi_secret⟩, ?_⟩
    simp [callback, hv, hp, storeRemove, hs, validate, hst, hex, hid, IdToken.claims,
      hsig, hn, hh, halg, hcomp]

/-- C6 witness: with a mismatching recomputed hash the concrete run fails
with InvalidAccessToken; with the matching hash it succeeds. -/
theorem callback_access_token_hash_check_witness :
    exHashFnBad exResponse.access_token "RS256" = some "hashY" ∧
    exClaims.access_token_hash = some "hashX" ∧
    (callback exCfg exExchange exHashFnBad 0 exStore exCookies exCb).result
      = .error .InvalidAccessToken ∧
    (∃ red, (callback exCfg exExchange exHashFn 0 exStore exCookies exCb).result
      = .ok red) :=
  ⟨rfl, rfl,
    (callback_access_token_hash_check exCfg exExchange exHashFnBad 0 exStore exCookies
        exCb exUuid.toString exUuid exSession exResponse exToken "hashX" "hashY" "RS256"
        rfl (by decide) (by decide) rfl rfl rfl rfl rfl rfl rfl rfl).1 (by decide),
    (callback_access_token_hash_check exCfg exExchange exHashFn 0 exStore exCookies
        exCb exUuid.toString exUuid exSession exResponse exToken "hashX" "hashX" "RS256"
        rfl (by decide) (by decide) rfl rfl rfl rfl rfl rfl rfl rfl).2 rfl⟩

/-- C7: the resolved user identifier is the preferred-username claim when
present and the subject claim otherwise. -/
theorem resolveUid_preferred_or_subject (c : Claims) :
    (∀ n, c.preferred_username = some n → resolveUid c = n) ∧
    (c.preferred_username = none → resolveUid c = c.subject) := by
  constructor
  · intro n h
    simp [resolveUid, h]
  · intro h
    simp [resolveUid, h]

/-- C7 witness: concrete claim sets with and without a preferred
username. -/
theorem resolveUid_preferred_or_subject_witness :
    resolveUid exClaims = "alice" ∧ resolveUid exClaimsNoPref = "sub-1" :=
  ⟨(resolveUid_preferred_or_subject exClaims).1 "alice" rfl,
   (resolveUid_preferred_or_subject exClaimsNoPref).2 rfl⟩

/-- C8: the serialized `iat` and `exp` claims of every minted credential
are whole-second Unix timestamps whose difference is exactly 86400. -/
theorem create_jitsi_jwt_exp_minus_iat (now : Int) (uid : String)
    (email name avatar : Option String) (aud iss sub room' secret : String) :
    jwt_numeric_date_serialize
        (create_jitsi_jwt now uid email name avatar aud iss sub room' secret).exp
      - jwt_numeric_date_serialize
        (create_jitsi_jwt now uid email name avatar aud iss sub room' secret).iat
      = 86400 := by
  simp only [create_jitsi_jwt, jwt_numeric_date_serialize]
  omega

/-- Every successful validation produces the redirect built at the end of
the chain: base is the configured target URL, the path targets the
consumed attempt's room, and the minted claims carry the hard-coded
audience, issuer and wildcard room together with the configured subject. -/
theorem validate_ok_fields (config : Cfg)
    (exchange : String → String → Option TokenResponse)
    (hashFromToken : String → String → Option String) (now : Int)
    (session : Session) (cb : Callback) (red : Redirect)
    (h : (validate config exchange hashFromToken now session cb).1 = .ok red) :
    red.base = config.jitsi_url ∧ red.room = session.room ∧ red.jwt.aud = "jitsi" ∧
    red.jwt.iss = "jitsi" ∧ red.jwt.sub = config.jitsi_sub ∧ red.jwt.room = "*" := by
  by_cases hst : cb.state = session.csrf_token
  · rcases hex : exchange cb.code session.pkce_verifier with _ | resp
    · simp [validate, hst, hex] at h
    · rcases hid : resp.id_token with _ | tok
      · simp [validate, hst, hex, hid] at h
      · rcases hcl : tok.claims session.nonce with _ | claims
        · simp [validate, hst, hex, hid, hcl] at h
        · rcases hh : claims.access_token_hash with _ | expected
          · simp [validate, hst, hex, hid, hcl, hh] at h
          · rcases halg : tok.signing_alg with _ | alg
            · simp [validate, hst, hex, hid, hcl, hh, halg] at h
            · rcases hcomp : hashFromToken resp.access_token alg with _ | actual
              · simp [validate, hst, hex, hid, hcl, hh, halg, hcomp] at h
              · by_cases heq : actual = expected
                · simp [validate, hst, hex, hid, hcl, hh, halg, hcomp, heq] at h
                  subst h
                  simp [create_jitsi_jwt]
                · simp [validate, hst, hex, hid, hcl, hh, halg, hcomp, heq] at h
  · simp [validate, hst] at h

/-- C9: whatever the configuration and the provider's answers, every
minted credential carries the literal audience "jitsi" and the literal
issuer "jitsi". -/
theorem callback_minted_aud_iss (config : Cfg)
    (exchange : String → String → Option TokenResponse)
    (hashFromToken : String → String → Option String) (now : Int) (store : Store)
    (cookies : List (String × String)) (cb : Callback) (red : Redirect)
    (h : (callback config exchange hashFromToken now store cookies cb).result = .ok red) :
    red.jwt.aud = "jitsi" ∧ red.jwt.iss = "jitsi" := by
  rcases hv : cookies.lookup COOKIE_NAME with _ | v
  · simp [callback, hv] at h
  · rcases hp : Uuid.parse_str v with _ | sid
    · simp [callback, hv, hp] at h
    · rcases hs : store.lookup sid with _ | session
      · simp [callback, hv, hp, storeRemove, hs] at h
      · have h2 : (validate config exchange hashFromToken now session cb).1 = .ok red := by
          simpa [callback, hv, hp, storeRemove, hs] using h
        obtain ⟨-, -, ha, hi, -, -⟩ :=
          validate_ok_fields config exchange hashFromToken now session cb red h2
        exact ⟨ha, hi⟩

/-- C9 witness: the successful fixture run mints audience and issuer
"jitsi" although the configuration nowhere contains that string. -/
theorem callback_minted_aud_iss_witness :
    (callback exCfg exExchange exHashFn 0 exStore exCookies exCb).result
        = .ok exRedirect ∧
    exRedirect.jwt.aud = "jitsi" ∧ exRedirect.jwt.iss = "jitsi" :=
  ⟨rfl, callback_minted_aud_iss exCfg exExchange exHashFn 0 exStore exCookies exCb
    exRedirect rfl⟩

/-- C10: for every request to GET /room/{name} the emitted SESSION cookie
has Domain "localhost", Path "/", HttpOnly set and a Max-Age of 30
minutes, for all stores, names, random draws and authorization URLs. -/
theorem room_cookie_fixed_attributes (rnd : RoomRandom) (auth_url : String)
    (store : Store) (name : String) :
    (room rnd auth_url store name).cookie.name = COOKIE_NAME ∧
    (room rnd auth_url store name).cookie.domain = "localhost" ∧
    (room rnd auth_url store name).cookie.path = "/" ∧
    (room rnd auth_url store name).cookie.http_only = true ∧
    (room rnd auth_url store name).cookie.max_age_seconds = 1800 :=
  ⟨rfl, rfl, rfl, rfl, rfl⟩

/-- C1 counterexample: a complete successful flow initiated for room
"standup" mints a token whose room claim is "*", not "standup" — the
claim that the room claim equals the requested room fails. -/
theorem flow_room_claim_counterexample :
    (callback exCfg exExchange exHashFn 0 (room exRnd "auth" [] "standup").store
        [(COOKIE_NAME, (room exRnd "auth" [] "standup").cookie.value)] exCb).result
      = .ok exRedirect ∧ exRedirect.room = "standup" ∧ exRedirect.jwt.room ≠ "standup" :=
  ⟨rfl, rfl, by decide⟩

/-- C1 (amended): initiating a flow for any room r and completing the
callback successfully yields a final redirect whose path targets r, while
the minted token's room claim is always the wildcard literal "*". -/
theorem flow_redirect_targets_room (r : String) (rnd : RoomRandom) (auth_url : String)
    (store0 : Store) (config : Cfg) (exchange : String → String → Option TokenResponse)
    (hashFromToken : String → String → Option String) (now : Int) (cb : Callback)
    (resp : TokenResponse) (tok : IdToken) (hsh alg : String)
    (hrt : Uuid.parse_str rnd.session_id.toString = some rnd.session_id)
    (hst : cb.state = rnd.csrf_token)
    (hex : exchange cb.code rnd.pkce_verifier = some resp)
    (hid : resp.id_token = some tok)
    (hsig : tok.signatureValid = true)
    (hn : tok.nonce = rnd.nonce)
    (hh : tok.payload.access_token_hash = some hsh)
    (halg : tok.signing_alg = some alg)
    (hcomp : hashFromToken resp.access_token alg = some hsh) :
    ∃ red, (callback config exchange hashFromToken now (room rnd auth_url store0 r).store
        [(COOKIE_NAME, (room rnd auth_url store0 r).cookie.value)] cb).result = .ok red
      ∧ red.room = r ∧ red.jwt.room = "*" := by
  have hck : (callback config exchange hashFromToken now (room rnd auth_url store0 r).store
      [(COOKIE_NAME, (room rnd auth_url store0 r).cookie.value)] cb).result
      = .ok ⟨config.jitsi_url, r,
          create_jitsi_jwt now (resolveUid tok.payload) tok.payload.email tok.payload.name
            none "jitsi" "jitsi" config.jitsi_sub "*" config.jitsi_secret⟩ := by
    simp [callback, room, storeInsert, List.lookup, hrt, storeRemove, validate, hst,
      hex, hid, IdToken.claims, hsig, hn, hh, halg, hcomp]
  exact ⟨_, hck, rfl, rfl⟩

/-- C1 witness (amended claim): the concrete flow for room "retro"
redirects to "retro" and mints the wildcard room claim. -/
theorem flow_redirect_targets_room_witness :
    Uuid.parse_str exUuid.toString = some exUuid ∧
    (∃ red, (callback exCfg exExchange exHashFn 0 (room exRnd "auth2" [] "retro").store
        [(COOKIE_NAME, (room exRnd "auth2" [] "retro").cookie.value)] exCb).result
      = .ok red ∧ red.room = "retro" ∧ red.jwt.room = "*") :=
  ⟨by decide,
    flow_redirect_targets_room "retro" exRnd "auth2" [] exCfg exExchange exHashFn 0 exCb
      exResponse exToken "hashX" "RS256" (by decide) rfl rfl rfl rfl rfl rfl rfl rfl⟩
